import Mathlib

/-!
Verification of the fetch-backup-verify-restore pipeline in
`scripts/fetch_data.py` of the lead-dashboard repository.

The dataset directory is modelled as an association list from entry name to
entry (a regular file with its content, or a subdirectory).  File contents are
either raw bytes (anything a fetcher downloads or dumps) or the JSON state
object written by `save_data_state`; JSON (de)serialisation of the state object
is modelled as the identity on the `DataState` value, and a `bytes` entry at
the state path models a state file whose contents do not parse as a JSON state
object.  Network traffic is an explicit input: each fetcher receives the
statuses and bodies the remote endpoints would answer with.
-/

namespace LeadDashboard

/-- Raw file contents, byte by byte. -/
abbrev Bytes := List Nat

/-- One element of the `changes` list built by `detect_data_changes`. -/
structure ChangeEvent where
  source : String
  type : String
  details : String
  file : String
deriving DecidableEq, Repr

/-- One element of the `fetch_errors` list accumulated by `main`. -/
structure FetchError where
  source : String
  name : String
  error : String
deriving DecidableEq, Repr

/-- Per-source record stored under `sources` in the persisted state.
`content_hash` and `file` are absent (`none`) when the file does not exist. -/
structure SourceRec where
  exists_ : Bool
  content_hash : Option String
  file : Option String
deriving DecidableEq, Repr

/-- The JSON state object persisted to `data-state.json`. -/
structure DataState where
  sources : List (String × SourceRec)
  last_check : String
  changes : List ChangeEvent
  changes_count : Nat
  fetch_success : Bool
  fetch_errors : List FetchError
deriving DecidableEq, Repr

/-- Contents of a regular file: raw bytes, or the state object written by
`save_data_state` (serialisation modelled as the identity). -/
inductive FileData where
  | bytes (b : Bytes)
  | state (s : DataState)
deriving DecidableEq, Repr

/-- A directory entry: a regular file or a subdirectory (one level deep: the
pipeline copies a subdirectory wholesale, skips it, or — via `shutil.copy2`
with a directory destination — writes one file into it). -/
inductive Entry where
  | file (c : FileData)
  | dir (sub : List (String × FileData))
deriving DecidableEq, Repr

/-- A directory: entry names paired with entries, first binding wins. -/
abbrev FsDir := List (String × Entry)

/-- Lookup in an association list (first binding wins). -/
def alookup {α : Type} : List (String × α) → String → Option α
  | [], _ => none
  | (k, v) :: t, n => if k = n then some v else alookup t n

/-- Overwrite-or-append in an association list: models writing a file at a
path (an existing entry of that name is replaced in place, otherwise the
entry is appended). -/
def aset {α : Type} : List (String × α) → String → α → List (String × α)
  | [], n, v => [(n, v)]
  | (k, w) :: t, n, v => if k = n then (n, v) :: t else (k, w) :: aset t n v

/-- `DATA_FILES` from the source: source key to tracked filename. -/
def DATA_FILES : List (String × String) :=
  [("socrata_90th", "socrata-90th-percentile.json"),
   ("dsmi", "DSMI-Service-Line-Materials-Estimates.xlsx"),
   ("lslr", "2024-2025-LSLR-Data.xlsx")]

/-- `SOURCE_NAMES` from the source: source key to human-readable name. -/
def SOURCE_NAMES : List (String × String) :=
  [("socrata_90th", "Socrata 90th Percentile API"),
   ("dsmi", "DSMI Service Line Materials"),
   ("lslr", "Lead & Copper Rule (LSLR)")]

/-- `SOURCE_NAMES.get(key, key)` from the source. -/
def source_name (key : String) : String := (alookup SOURCE_NAMES key).getD key

/-- Basename of `DATA_STATE_FILE`; the state file is an entry of the dataset
directory itself (`DATA_STATE_FILE = os.path.join(DATA_DIR, "data-state.json")`). -/
def data_state_filename : String := "data-state.json"

/-- `get_file_hash`: md5 hexdigest of the file contents, modelled as an
injective digest of the raw bytes.  A state object stored as a file is never
hashed on any run (only the three `DATA_FILES` names are hashed and the
program writes only raw bytes there), so its digest is a fixed tag. -/
def get_file_hash (c : FileData) : String :=
  match c with
  | .bytes b => "md5:" ++ toString b
  | .state _ => "md5:state-object"

/-- The empty dict `{}` returned by `load_data_state` when the state file is
missing; only its (empty) `sources` mapping is ever read. -/
def emptyState : DataState :=
  { sources := [], last_check := "", changes := [], changes_count := 0,
    fetch_success := true, fetch_errors := [] }

/-- `load_data_state`: `json.load` of the state file, with only
`FileNotFoundError` caught (missing file yields `{}`).  `none` models an
uncaught exception: contents that do not parse as the JSON state object
(`json.JSONDecodeError`), or a directory at the state path. -/
def load_data_state (d : FsDir) : Option DataState :=
  match alookup d data_state_filename with
  | none => some emptyState
  | some (.file (.state s)) => some s
  | some (.file (.bytes _)) => none
  | some (.dir _) => none

/-- `save_data_state`: overwrite the state file with the state object. -/
def save_data_state (d : FsDir) (s : DataState) : FsDir :=
  aset d data_state_filename (.file (.state s))

/-- Truthiness of `prev_source.get("content_hash")`: present and non-empty. -/
def usable_hash : Option String → Bool
  | some h => !h.isEmpty
  | none => false

/-- The loop body of `detect_data_changes` over `DATA_FILES`: builds the new
`sources` mapping and the `changes` list.  `none` models an uncaught
exception while hashing (a directory sitting at a tracked filename: the path
exists but `open(path, "rb")` raises). -/
def detect_loop (prev : DataState) (d : FsDir) :
    List (String × String) → Option (List (String × SourceRec) × List ChangeEvent)
  | [] => some ([], [])
  | (key, filename) :: rest =>
    match alookup d filename with
    | none =>
      match detect_loop prev d rest with
      | none => none
      | some (srcs, chs) =>
        some ((key, ⟨false, none, none⟩) :: srcs, chs)
    | some (.dir _) => none
    | some (.file c) =>
      let content_hash := get_file_hash c
      let prev_hash := (alookup prev.sources key).bind (fun r => r.content_hash)
      let emit : Bool :=
        match prev_hash with
        | some h => !h.isEmpty && !(h == content_hash)
        | none => false
      let ev : ChangeEvent :=
        ⟨source_name key, "Data content changed",
         "File " ++ filename ++ " has been modified", filename⟩
      match detect_loop prev d rest with
      | none => none
      | some (srcs, chs) =>
        some ((key, ⟨true, some content_hash, some filename⟩) :: srcs,
              (if emit then [ev] else []) ++ chs)

/-- `detect_data_changes`: load the previous state from the state file, then
run the detection loop over `DATA_FILES`.  `none` models an uncaught
exception (from `load_data_state` or from hashing). -/
def detect_data_changes (d : FsDir) :
    Option (List (String × SourceRec) × List ChangeEvent) :=
  match load_data_state d with
  | none => none
  | some prev => detect_loop prev d DATA_FILES

/-- `backup_data`: remove any previous backup, then deep-copy the dataset
directory (which `main` has just ensured exists) to the backup location. -/
def backup_data (dataD : FsDir) (_oldBackup : Option FsDir) : Option FsDir :=
  some dataD

/-- `shutil.copy2(src, dst)` with `dst = os.path.join(DATA_DIR, n)`: when the
destination is an existing directory, CPython copies the file *into* it under
the source's basename (`DATA_DIR/n/n`), leaving the top-level entry a
directory; otherwise the destination file is created or overwritten. -/
def copy2_into (dataD : FsDir) (n : String) (c : FileData) : FsDir :=
  match alookup dataD n with
  | some (.dir sub) => aset dataD n (.dir (aset sub n c))
  | _ => aset dataD n (.file c)

/-- The copy loop of `restore_from_backup`: for every name listed in the
backup, `shutil.copy2` it into the dataset directory if it is a regular file;
subdirectories are skipped (`os.path.isfile` is false). -/
def restore_files (dataD : FsDir) : FsDir → FsDir
  | [] => dataD
  | (n, .file c) :: t => restore_files (copy2_into dataD n c) t
  | (_, .dir _) :: t => restore_files dataD t

/-- `restore_from_backup`: no-op when no backup directory exists, otherwise
copy each top-level regular file of the backup over the dataset directory. -/
def restore_from_backup (dataD : FsDir) (backupD : Option FsDir) : FsDir :=
  match backupD with
  | none => dataD
  | some b => restore_files dataD b

/-- `clear_backup`: remove the backup directory (no-op if absent). -/
def clear_backup (_b : Option FsDir) : Option FsDir := none

/-! ### URL helpers (`urllib.parse`) -/

/-- Characters allowed after the first letter of a URL scheme. -/
def schemeChar (c : Char) : Bool :=
  c.isAlphanum || c = '+' || c = '-' || c = '.'

/-- Everything of `l` strictly before the first occurrence of `c`. -/
def takeUntil (c : Char) (l : List Char) : List Char :=
  l.takeWhile (fun x => !(x = c : Bool))

/-- Whether a URL reference starts with a valid `scheme:` prefix. -/
def hasScheme (l : List Char) : Bool :=
  match l.findIdx? (fun x => (x = ':' : Bool)) with
  | none => false
  | some i =>
    let p := l.take i
    !p.isEmpty && (p.headD ' ').isAlpha && p.all schemeChar

/-- The characters of `l` after its `scheme:` prefix, if it has one. -/
def dropScheme (l : List Char) : List Char :=
  if hasScheme l then (l.dropWhile (fun x => !(x = ':' : Bool))).drop 1 else l

/-- `urlparse(href).path`: strip the fragment, the scheme and the
`//netloc` part (which extends to the next `/` or `?`), then the query. -/
def url_path_chars (href : List Char) : List Char :=
  let noFrag := takeUntil '#' href
  let rest := dropScheme noFrag
  let afterNetloc :=
    if rest.take 2 = ['/', '/'] then
      (rest.drop 2).dropWhile (fun x => !(x = '/' : Bool) && !(x = '?' : Bool))
    else rest
  takeUntil '?' afterNetloc

/-- ASCII lowercasing of one character.  `str.lower()` in the source feeds
an `endswith(".xlsx")` test, and no character other than the ASCII letters
lowercases onto `.`, `x`, `l` or `s`, so ASCII lowering decides that test
exactly as Python does. -/
def lowerChar (c : Char) : Char :=
  if 65 ≤ c.toNat ∧ c.toNat ≤ 90 then Char.ofNat (c.toNat + 32) else c

/-- `_is_xlsx_href`: the URL path (query string ignored), lowercased, ends
in `.xlsx`. -/
def is_xlsx_href (href : String) : Bool :=
  (".xlsx".data).isSuffixOf ((url_path_chars href.data).map lowerChar)

/-- The scheme of a base URL, e.g. `https`. -/
def schemeOf (base : List Char) : List Char := takeUntil ':' base

/-- `scheme://netloc` of a base URL of that shape. -/
def rootOf (base : List Char) : List Char :=
  let s := schemeOf base
  let afterSlashes := (dropScheme base).drop 2
  s ++ [':', '/', '/'] ++ takeUntil '?' (takeUntil '/' (takeUntil '#' afterSlashes))

/-- The base URL up to and including the last `/` (fragment and query
stripped first). -/
def dirOf (base : List Char) : List Char :=
  let cleaned := takeUntil '?' (takeUntil '#' base)
  (cleaned.reverse.dropWhile (fun x => !(x = '/' : Bool))).reverse

/-- `urllib.parse.urljoin(base, url)` restricted to the cases this pipeline
exercises: an empty reference keeps the base; a reference with its own scheme
is absolute; `//…` takes the base scheme; `/…` replaces the whole path of the
base; any other relative reference replaces the last path segment of the
base. -/
def urljoin (base url : String) : String :=
  let b := base.data
  let u := url.data
  if u.isEmpty then base
  else if hasScheme u then url
  else if u.take 2 = ['/', '/'] then String.mk (schemeOf b ++ [':'] ++ u)
  else if u.headD ' ' = '/' then String.mk (rootOf b ++ u)
  else String.mk (dirOf b ++ u)

/-! ### Fetchers -/

/-- `Response.raise_for_status()` raises for client and server error
statuses (400–599). -/
def statusRaises (s : Nat) : Bool := decide (400 ≤ s) && decide (s < 600)

/-- The exceptions a fetcher can raise in this model.  `httpError` is a
`requests` exception from `raise_for_status`, `jsonDecodeError` a JSON parse
failure of a response body, and the two link errors are the `ValueError`s of
the scrape fetchers (carrying the page label and, for the ambiguous case,
every candidate URL).  `badCountError` stands for the
`ValueError`/`KeyError`/`TypeError` that `int(count_data[0]["count"])`
raises on a valid-JSON but ill-shaped count response; unlike the others it
is *not* listed in any `except` clause of `main`. -/
inductive PyErr where
  | httpError (status : Nat)
  | jsonDecodeError
  | noLinkError (page : String)
  | multiLinkError (page : String) (links : List String)
  | badCountError
deriving DecidableEq, Repr

/-- `str(e)` for the errors above.  The `ValueError` messages are the format
strings of the source; the network-library messages are abstracted. -/
def errMsg : PyErr → String
  | .httpError s => "HTTP error " ++ toString s
  | .jsonDecodeError => "Expecting value: JSON decode failed"
  | .noLinkError page => "No xlsx file link found on " ++ page
  | .multiLinkError page links =>
    "Multiple xlsx links found on " ++ page ++ " (" ++ toString links.length
      ++ "), skipping fetch: " ++ toString links
  | .badCountError => "count field of the count response unusable"

/-- One element of the parsed count-response list.  `countOf n` is an object
whose `"count"` field converts to the integer `n`; `malformed` is any
element on which `count_data[0]["count"]` or `int(...)` raises
(`TypeError`/`KeyError`/`ValueError`) — a valid-JSON but ill-shaped
response. -/
inductive CountItem where
  | countOf (n : Nat)
  | malformed
deriving DecidableEq, Repr

/-- Network input for `fetch_socrata_api`: the count endpoint's status and
parsed body (`none`: body not valid JSON), and for each record limit `n`,
the status and parsed body of the `$limit=n` request. -/
structure SocrataNet where
  countStatus : Nat
  countBody : Option (List CountItem)
  allStatus : Nat → Nat
  allBody : Nat → Option Bytes

/-- `int(count_data[0]["count"]) if count_data else 0`: 0 for an empty (or
falsy) body, the first element's count when it is readable, and `none` when
the subscription or conversion raises. -/
def record_count_of : List CountItem → Option Nat
  | [] => some 0
  | .countOf n :: _ => some n
  | .malformed :: _ => none

/-- `fetch_socrata_api`: count query, then a single `$limit` request for
exactly the returned count.  Besides the result, the list of `$limit` values
actually requested is returned, so that theorems can speak about which
follow-up requests were issued. -/
def fetch_socrata_api (net : SocrataNet) : Except PyErr Bytes × List Nat :=
  if statusRaises net.countStatus then (.error (.httpError net.countStatus), [])
  else
    match net.countBody with
    | none => (.error .jsonDecodeError, [])
    | some count_data =>
      match record_count_of count_data with
      | none => (.error .badCountError, [])
      | some record_count =>
        if statusRaises (net.allStatus record_count) then
          (.error (.httpError (net.allStatus record_count)), [record_count])
        else
          match net.allBody record_count with
          | none => (.error .jsonDecodeError, [record_count])
          | some recs => (.ok recs, [record_count])

/-- Network input for a scrape fetcher: the landing page's status, the `href`
values of its `<a>` tags (HTML parsing abstracted), and for each URL the
status and body of a download request to it. -/
structure ScrapeNet where
  pageStatus : Nat
  pageLinks : List String
  downloadStatus : String → Nat
  downloadBody : String → Bytes

/-- `page_url` of `fetch_dsmi_inventories`. -/
def dsmi_page_url : String :=
  "https://www.michigan.gov/egle/about/organization/drinking-water-and-environmental-health/community-water-supply/lead-and-copper-rule/dsmi-inventories"

/-- `page_url` of `fetch_lead_copper_rule`. -/
def lslr_page_url : String :=
  "https://www.michigan.gov/egle/about/organization/drinking-water-and-environmental-health/community-water-supply/lead-and-copper-rule/lslr-progress"

/-- Page label used in the `ValueError` messages of `fetch_dsmi_inventories`. -/
def dsmi_page_label : String := "DSMI inventories page"

/-- Page label used in the `ValueError` messages of `fetch_lead_copper_rule`. -/
def lslr_page_label : String := "LSLR progress page"

/-- Target filename of the Socrata source (`DATA_FILES["socrata_90th"]`). -/
def socrata_filename : String := "socrata-90th-percentile.json"

/-- Target filename of `fetch_dsmi_inventories`. -/
def dsmi_filename : String := "DSMI-Service-Line-Materials-Estimates.xlsx"

/-- Target filename of `fetch_lead_copper_rule`. -/
def lslr_filename : String := "2024-2025-LSLR-Data.xlsx"

/-- The common body of the two scrape fetchers: fetch the landing page,
filter its links to those whose path ends in `.xlsx`, require exactly one,
resolve it against the page URL, download it and write it to the target
file.  Returns the outcome and the (possibly updated) dataset directory. -/
def scrape_fetch (page_url page_label filename : String) (net : ScrapeNet)
    (d : FsDir) : Except PyErr Unit × FsDir :=
  if statusRaises net.pageStatus then (.error (.httpError net.pageStatus), d)
  else
    let xlsx_links := net.pageLinks.filter is_xlsx_href
    if xlsx_links.isEmpty then (.error (.noLinkError page_label), d)
    else if 1 < xlsx_links.length then
      (.error (.multiLinkError page_label xlsx_links), d)
    else
      let xlsx_url := urljoin page_url (xlsx_links.headD "")
      if statusRaises (net.downloadStatus xlsx_url) then
        (.error (.httpError (net.downloadStatus xlsx_url)), d)
      else
        (.ok (), aset d filename (.file (.bytes (net.downloadBody xlsx_url))))

/-- `fetch_dsmi_inventories`. -/
def fetch_dsmi_inventories (net : ScrapeNet) (d : FsDir) :
    Except PyErr Unit × FsDir :=
  scrape_fetch dsmi_page_url dsmi_page_label dsmi_filename net d

/-- `fetch_lead_copper_rule`. -/
def fetch_lead_copper_rule (net : ScrapeNet) (d : FsDir) :
    Except PyErr Unit × FsDir :=
  scrape_fetch lslr_page_url lslr_page_label lslr_filename net d

/-! ### Orchestration (`main`) -/

/-- All external inputs of one run: the three sources' network behaviour and
the `datetime.now()` timestamp. -/
structure RunInput where
  socrataNet : SocrataNet
  dsmiNet : ScrapeNet
  lslrNet : ScrapeNet
  now : String

/-- The first `try/except` block of `main`: fetch the Socrata records and
dump them to the target file; on failure record a `FetchError` with the
source key, the human-readable name and the message.  The `except` clause
lists only `(requests.RequestException, json.JSONDecodeError)` — it catches
the modelled `httpError` and `jsonDecodeError`, but **not** the
`ValueError`/`KeyError`/`TypeError` of `int(count_data[0]["count"])`
(`badCountError`), which therefore escapes the block: `none` models that
uncaught exception (raised before any file write). -/
def step_socrata (net : SocrataNet) (d : FsDir) :
    Option (FsDir × List FetchError) :=
  match fetch_socrata_api net with
  | (.ok recs, _) =>
    some (aset d socrata_filename (.file (.bytes recs)), [])
  | (.error .badCountError, _) => none
  | (.error e, _) =>
    some (d, [⟨"socrata_90th", source_name "socrata_90th", errMsg e⟩])

/-- The second `try/except` block of `main` (DSMI). -/
def step_dsmi (net : ScrapeNet) (d : FsDir) : FsDir × List FetchError :=
  match fetch_dsmi_inventories net d with
  | (.ok _, d2) => (d2, [])
  | (.error e, d2) => (d2, [⟨"dsmi", source_name "dsmi", errMsg e⟩])

/-- The third `try/except` block of `main` (Lead & Copper Rule). -/
def step_lslr (net : ScrapeNet) (d : FsDir) : FsDir × List FetchError :=
  match fetch_lead_copper_rule net d with
  | (.ok _, d2) => (d2, [])
  | (.error e, d2) => (d2, [⟨"lslr", source_name "lslr", errMsg e⟩])

/-- The three fetch blocks of `main`, in their fixed order, with the fetch
errors accumulated across them.  `none` models the run dying inside the
Socrata block of an exception its `except` clause does not list: the two
scrape sources are then never attempted and no `FetchError` is recorded. -/
def fetch_all (inp : RunInput) (d0 : FsDir) :
    Option (FsDir × List FetchError) :=
  match step_socrata inp.socrataNet d0 with
  | none => none
  | some s1 =>
    let s2 := step_dsmi inp.dsmiNet s1.1
    let s3 := step_lslr inp.lslrNet s2.1
    some (s3.1, s1.2 ++ s2.2 ++ s3.2)

/-- The dataset directory after the conditional restore, given the fetch
phase's outcome: `main` restores from the backup exactly when at least one
`FetchError` was recorded. -/
def restored_dir (pre : FsDir) (fetched : FsDir × List FetchError) : FsDir :=
  if fetched.2.isEmpty then fetched.1
  else restore_from_backup fetched.1 (backup_data pre none)

/-- The dataset directory after the fetch phase and the conditional restore
(`none` when the run already died inside the Socrata block). -/
def run_restored (pre : FsDir) (inp : RunInput) : Option FsDir :=
  (fetch_all inp pre).map (restored_dir pre)

/-- Observable outcome of one run: final dataset directory, final backup
directory (`none` when cleared or never present), process exit code, and the
state object saved this run (`none` when the run died of an uncaught
exception before `save_data_state`). -/
structure RunResult where
  data : FsDir
  backup : Option FsDir
  exitCode : Nat
  saved : Option DataState
deriving DecidableEq, Repr

/-- `main`: make the data directory, back it up, run the three fetchers,
restore on any failure, detect changes, persist the new state, clear the
backup only when everything succeeded and nothing changed, and exit non-zero
exactly when a fetch failed.  Two uncaught-exception exits are modelled: one
inside the Socrata block (before any write or restore, nothing recorded) and
one inside `detect_data_changes`; both end the run with exit code 1, nothing
saved, and the backup left in place. -/
def mainRun (pre : FsDir) (inp : RunInput) : RunResult :=
  let backupD := backup_data pre none
  match fetch_all inp pre with
  | none => ⟨pre, backupD, 1, none⟩
  | some fetched =>
    let fetch_errors := fetched.2
    let d2 := restored_dir pre fetched
    match detect_data_changes d2 with
    | none => ⟨d2, backupD, 1, none⟩
    | some (srcs, changes) =>
      let current_state : DataState :=
        { sources := srcs, last_check := inp.now, changes := changes,
          changes_count := changes.length,
          fetch_success := fetch_errors.isEmpty, fetch_errors := fetch_errors }
      let d3 := save_data_state d2 current_state
      let backupFinal :=
        if fetch_errors.isEmpty && changes.isEmpty then clear_backup backupD
        else backupD
      ⟨d3, backupFinal, if fetch_errors.isEmpty then 0 else 1, some current_state⟩

/-! ### Basic lemmas about the directory model -/

theorem alookup_aset {α : Type} (l : List (String × α)) (n : String) (v : α)
    (m : String) :
    alookup (aset l n v) m = if m = n then some v else alookup l m := by
  induction l with
  | nil =>
    by_cases h : m = n <;> simp [aset, alookup, h]
    intro h2
    exact absurd h2.symm h
  | cons p t ih =>
    obtain ⟨k, w⟩ := p
    by_cases hk : k = n
    · subst hk
      by_cases hm : m = k
      · subst hm
        simp [aset, alookup]
      · have hk2 : ¬ k = m := fun h => hm h.symm
        simp [aset, alookup, hm, hk2]
    · by_cases hm : k = m
      · subst hm
        have hkn : ¬ k = n := hk
        have hnk : (k = n) = False := eq_false hkn
        simp [aset, alookup, hk, hnk]
      · simp [aset, alookup, hk, hm, ih]

theorem alookup_eq_none {α : Type} (l : List (String × α)) (n : String)
    (h : n ∉ l.map Prod.fst) : alookup l n = none := by
  induction l with
  | nil => rfl
  | cons p t ih =>
    obtain ⟨k, w⟩ := p
    simp only [List.map_cons, List.mem_cons] at h
    push_neg at h
    have hk : ¬ k = n := fun he => h.1 he.symm
    simp [alookup, hk, ih h.2]

/-- What a lookup sees after the restore loop: a regular file listed in the
backup overwrites a file (or fills an absent entry) of that name, is copied
*into* a directory of that name (`shutil.copy2` semantics), and anything
else leaves the dataset directory's entry alone. -/
def restoredEntry (n : String) (bEntry dEntry : Option Entry) : Option Entry :=
  match bEntry with
  | some (.file c) =>
    match dEntry with
    | some (.dir sub) => some (.dir (aset sub n c))
    | _ => some (.file c)
  | _ => dEntry

theorem alookup_copy2_into (d : FsDir) (k : String) (c : FileData)
    (m : String) :
    alookup (copy2_into d k c) m
      = if m = k then restoredEntry k (some (.file c)) (alookup d k)
        else alookup d m := by
  unfold copy2_into
  cases hdk : alookup d k with
  | none => simp [alookup_aset, hdk, restoredEntry]
  | some e => cases e <;> simp [alookup_aset, hdk, restoredEntry]

theorem restore_files_lookup (b : FsDir) (d : FsDir) (m : String)
    (hnd : (b.map Prod.fst).Nodup) :
    alookup (restore_files d b) m
      = restoredEntry m (alookup b m) (alookup d m) := by
  induction b generalizing d with
  | nil => rfl
  | cons p t ih =>
    obtain ⟨k, e⟩ := p
    simp only [List.map_cons, List.nodup_cons] at hnd
    obtain ⟨hk, hnd2⟩ := hnd
    cases e with
    | file c =>
      by_cases hm : k = m
      · subst hm
        simp only [restore_files, alookup, if_pos rfl]
        rw [ih _ hnd2, alookup_eq_none t k hk]
        simp [restoredEntry, alookup_copy2_into]
      · simp only [restore_files, alookup, if_neg hm]
        rw [ih _ hnd2, alookup_copy2_into]
        have : ¬ m = k := fun he => hm he.symm
        simp [this]
    | dir s =>
      by_cases hm : k = m
      · subst hm
        simp only [restore_files, alookup, if_pos rfl]
        rw [ih _ hnd2, alookup_eq_none t k hk]
        simp [restoredEntry]
      · simp only [restore_files, alookup, if_neg hm]
        exact ih _ hnd2

/-- Whether a lookup result is a subdirectory entry.  Writing a file over a
path occupied by a directory is outside this model (CPython raises an
uncaught `IsADirectoryError` there), so theorems about runs that write files
assume the written paths are not directories. -/
def is_dir_entry : Option Entry → Bool
  | some (.dir _) => true
  | _ => false

/-- The scrape outcome (success or the exception raised) is a function of
the network alone; the dataset directory passed in never influences it. -/
theorem scrape_fetch_fst_const (pu pl fn : String) (net : ScrapeNet)
    (d d2 : FsDir) :
    (scrape_fetch pu pl fn net d).1 = (scrape_fetch pu pl fn net d2).1 := by
  simp only [scrape_fetch]
  split_ifs <;> rfl

/-- Shape of a scrape fetch: on success it writes one file (the downloaded
bytes, the same whatever directory it starts from); on failure it leaves the
directory untouched. -/
theorem scrape_fetch_shape (pu pl fn : String) (net : ScrapeNet) :
    ((scrape_fetch pu pl fn net []).1 = .ok () →
      ∃ b, ∀ d, (scrape_fetch pu pl fn net d).2 = aset d fn (.file (.bytes b))) ∧
    (∀ e, (scrape_fetch pu pl fn net []).1 = .error e →
      ∀ d, (scrape_fetch pu pl fn net d).2 = d) := by
  constructor
  · intro h
    simp only [scrape_fetch] at h ⊢
    split_ifs at h ⊢
    exact ⟨_, fun d => rfl⟩
  · intro e h d
    simp only [scrape_fetch] at h ⊢
    split_ifs at h ⊢ <;> simp_all

/-- A scrape fetch never touches any name other than its target filename. -/
theorem scrape_fetch_frame (pu pl fn : String) (net : ScrapeNet) (d : FsDir)
    (n : String) (h : n ≠ fn) :
    alookup (scrape_fetch pu pl fn net d).2 n = alookup d n := by
  simp only [scrape_fetch]
  split_ifs <;> simp [alookup_aset, h]

/-- The Socrata step, when it completes, never touches any name other than
its target filename. -/
theorem step_socrata_frame (net : SocrataNet) (d : FsDir)
    (s1 : FsDir × List FetchError) (hs1 : step_socrata net d = some s1)
    (n : String) (h : n ≠ socrata_filename) :
    alookup s1.1 n = alookup d n := by
  rcases hs : fetch_socrata_api net with ⟨r, log⟩
  cases r with
  | ok recs =>
    simp only [step_socrata, hs, Option.some.injEq] at hs1
    rw [← hs1]
    simp [alookup_aset, h]
  | error e =>
    cases e <;> simp only [step_socrata, hs, Option.some.injEq] at hs1 <;>
      first
        | exact Option.noConfusion hs1
        | (rw [← hs1])

/-- The DSMI step never touches any name other than its target filename. -/
theorem step_dsmi_frame (net : ScrapeNet) (d : FsDir) (n : String)
    (h : n ≠ dsmi_filename) :
    alookup (step_dsmi net d).1 n = alookup d n := by
  rcases hs : fetch_dsmi_inventories net d with ⟨r, d2⟩
  have hs2 : scrape_fetch dsmi_page_url dsmi_page_label dsmi_filename net d
      = (r, d2) := hs
  have := scrape_fetch_frame dsmi_page_url dsmi_page_label dsmi_filename net d n h
  rw [hs2] at this
  cases r <;> simpa [step_dsmi, hs] using this

/-- The LSLR step never touches any name other than its target filename. -/
theorem step_lslr_frame (net : ScrapeNet) (d : FsDir) (n : String)
    (h : n ≠ lslr_filename) :
    alookup (step_lslr net d).1 n = alookup d n := by
  rcases hs : fetch_lead_copper_rule net d with ⟨r, d2⟩
  have hs2 : scrape_fetch lslr_page_url lslr_page_label lslr_filename net d
      = (r, d2) := hs
  have := scrape_fetch_frame lslr_page_url lslr_page_label lslr_filename net d n h
  rw [hs2] at this
  cases r <;> simpa [step_lslr, hs] using this

/-- Decomposition of a completed fetch phase into its three steps. -/
theorem fetch_all_eq_some (inp : RunInput) (d0 : FsDir)
    (fetched : FsDir × List FetchError)
    (hfa : fetch_all inp d0 = some fetched) :
    ∃ s1, step_socrata inp.socrataNet d0 = some s1 ∧
      fetched.1 = (step_lslr inp.lslrNet (step_dsmi inp.dsmiNet s1.1).1).1 ∧
      fetched.2 = s1.2 ++ (step_dsmi inp.dsmiNet s1.1).2
        ++ (step_lslr inp.lslrNet (step_dsmi inp.dsmiNet s1.1).1).2 := by
  cases hss : step_socrata inp.socrataNet d0 with
  | none =>
    rw [fetch_all, hss] at hfa
    cases hfa
  | some s1 =>
    rw [fetch_all, hss] at hfa
    simp only [Option.some.injEq] at hfa
    exact ⟨s1, rfl, by rw [← hfa], by rw [← hfa]⟩

/-- The dataset directory after a completed fetch phase agrees with the
input directory at every name other than the three tracked target
filenames. -/
theorem fetch_all_frame (inp : RunInput) (d0 : FsDir)
    (fetched : FsDir × List FetchError)
    (hfa : fetch_all inp d0 = some fetched) (n : String)
    (h1 : n ≠ socrata_filename) (h2 : n ≠ dsmi_filename)
    (h3 : n ≠ lslr_filename) :
    alookup fetched.1 n = alookup d0 n := by
  obtain ⟨s1, hs1, hd, _⟩ := fetch_all_eq_some inp d0 fetched hfa
  rw [hd, step_lslr_frame _ _ _ h3, step_dsmi_frame _ _ _ h2,
    step_socrata_frame _ _ _ hs1 _ h1]

/-- Writing a regular file never makes a lookup a directory that was not
one before. -/
theorem is_dir_entry_aset_file (d : FsDir) (fn n : String) (c : FileData)
    (h : is_dir_entry (alookup d n) = false) :
    is_dir_entry (alookup (aset d fn (.file c)) n) = false := by
  rw [alookup_aset]
  split_ifs with hif
  · rfl
  · exact h

/-- A scrape fetch writes only a regular file, so it preserves
non-directory-ness of every lookup. -/
theorem scrape_fetch_not_dir (pu pl fn : String) (net : ScrapeNet)
    (d : FsDir) (n : String) (h : is_dir_entry (alookup d n) = false) :
    is_dir_entry (alookup (scrape_fetch pu pl fn net d).2 n) = false := by
  simp only [scrape_fetch]
  split_ifs <;> first
    | exact h
    | exact is_dir_entry_aset_file d fn n _ h

/-- The DSMI step preserves non-directory-ness of every lookup. -/
theorem step_dsmi_not_dir (net : ScrapeNet) (d : FsDir) (n : String)
    (h : is_dir_entry (alookup d n) = false) :
    is_dir_entry (alookup (step_dsmi net d).1 n) = false := by
  rcases hs : fetch_dsmi_inventories net d with ⟨r, d2⟩
  have hs2 : scrape_fetch dsmi_page_url dsmi_page_label dsmi_filename net d
      = (r, d2) := hs
  have := scrape_fetch_not_dir dsmi_page_url dsmi_page_label dsmi_filename
    net d n h
  rw [hs2] at this
  cases r <;> simpa [step_dsmi, hs] using this

/-- The LSLR step preserves non-directory-ness of every lookup. -/
theorem step_lslr_not_dir (net : ScrapeNet) (d : FsDir) (n : String)
    (h : is_dir_entry (alookup d n) = false) :
    is_dir_entry (alookup (step_lslr net d).1 n) = false := by
  rcases hs : fetch_lead_copper_rule net d with ⟨r, d2⟩
  have hs2 : scrape_fetch lslr_page_url lslr_page_label lslr_filename net d
      = (r, d2) := hs
  have := scrape_fetch_not_dir lslr_page_url lslr_page_label lslr_filename
    net d n h
  rw [hs2] at this
  cases r <;> simpa [step_lslr, hs] using this

/-- The Socrata step, when it completes, preserves non-directory-ness of
every lookup. -/
theorem step_socrata_not_dir (net : SocrataNet) (d : FsDir)
    (s1 : FsDir × List FetchError) (hs1 : step_socrata net d = some s1)
    (n : String) (h : is_dir_entry (alookup d n) = false) :
    is_dir_entry (alookup s1.1 n) = false := by
  rcases hs : fetch_socrata_api net with ⟨r, log⟩
  cases r with
  | ok recs =>
    simp only [step_socrata, hs, Option.some.injEq] at hs1
    rw [← hs1]
    exact is_dir_entry_aset_file d socrata_filename n _ h
  | error e =>
    cases e <;> simp only [step_socrata, hs, Option.some.injEq] at hs1 <;>
      first
        | exact Option.noConfusion hs1
        | (rw [← hs1]; exact h)

/-- A completed fetch phase preserves non-directory-ness of every lookup. -/
theorem fetch_all_not_dir (inp : RunInput) (d0 : FsDir)
    (fetched : FsDir × List FetchError)
    (hfa : fetch_all inp d0 = some fetched) (n : String)
    (h : is_dir_entry (alookup d0 n) = false) :
    is_dir_entry (alookup fetched.1 n) = false := by
  obtain ⟨s1, hs1, hd, _⟩ := fetch_all_eq_some inp d0 fetched hfa
  rw [hd]
  exact step_lslr_not_dir _ _ _ (step_dsmi_not_dir _ _ _
    (step_socrata_not_dir _ _ _ hs1 _ h))

/-! ### Claim C10 -/

/-- C10 counterexample: when the dataset directory holds a *directory* at a
backup file's name, `shutil.copy2` does not replace the top-level entry — it
copies the file into that directory (`DATA_DIR/a/a`), so the restore
changes the contents of a top-level subdirectory and the backup's file does
not become the top-level entry of that name. -/
theorem C10_counterexample :
    alookup (restore_from_backup [("a", Entry.dir [])]
        (some [("a", Entry.file (.bytes [1]))])) "a"
      = some (Entry.dir [("a", FileData.bytes [1])]) ∧
    alookup (restore_from_backup [("a", Entry.dir [])]
        (some [("a", Entry.file (.bytes [1]))])) "a"
      ≠ some (Entry.file (.bytes [1])) ∧
    alookup (restore_from_backup [("a", Entry.dir [])]
        (some [("a", Entry.file (.bytes [1]))])) "a"
      ≠ alookup [("a", Entry.dir [])] "a" := by
  decide

/-- C10 amended: `restore_from_backup` copies only top-level regular files
of the backup — backup directory entries are skipped and names absent from
the backup are untouched; a copied file becomes the dataset directory's
top-level entry of that name when that entry is absent or a regular file,
but when a directory sits at that name the file is copied *into* it under
its own name (`shutil.copy2`'s existing-directory destination) and the
top-level entry stays that directory. -/
theorem C10_restore_copy2_semantics (dataD b : FsDir) (n : String)
    (hnd : (b.map Prod.fst).Nodup) :
    (∀ s, alookup b n = some (.dir s) →
      alookup (restore_from_backup dataD (some b)) n = alookup dataD n) ∧
    (alookup b n = none →
      alookup (restore_from_backup dataD (some b)) n = alookup dataD n) ∧
    (∀ c, alookup b n = some (.file c) →
      (is_dir_entry (alookup dataD n) = false →
        alookup (restore_from_backup dataD (some b)) n = some (.file c)) ∧
      (∀ sub, alookup dataD n = some (.dir sub) →
        alookup (restore_from_backup dataD (some b)) n
          = some (.dir (aset sub n c)))) := by
  refine ⟨fun s hb => ?_, fun hb => ?_,
    fun c hb => ⟨fun hdd => ?_, fun sub hdd => ?_⟩⟩
  · show alookup (restore_files dataD b) n = _
    rw [restore_files_lookup b dataD n hnd, hb]
    rfl
  · show alookup (restore_files dataD b) n = _
    rw [restore_files_lookup b dataD n hnd, hb]
    rfl
  · show alookup (restore_files dataD b) n = _
    rw [restore_files_lookup b dataD n hnd, hb]
    cases hdk : alookup dataD n with
    | none => rfl
    | some e =>
      cases e with
      | file c2 => rfl
      | dir s2 =>
        rw [hdk] at hdd
        exact Bool.noConfusion hdd
  · show alookup (restore_files dataD b) n = _
    rw [restore_files_lookup b dataD n hnd, hb, hdd]
    rfl

/-- Witness for C10 on a concrete backup: the file `"b"` is restored as a
top-level file, while the file `"a"` is copied into the directory sitting
at `"a"`, which remains a directory. -/
theorem C10_witness :
    alookup (restore_from_backup [("a", Entry.dir [("z", FileData.bytes [7])])]
        (some [("a", Entry.file (.bytes [1])), ("b", Entry.file (.bytes [5]))]))
      "a" = some (Entry.dir [("z", FileData.bytes [7]), ("a", FileData.bytes [1])]) ∧
    alookup (restore_from_backup [("a", Entry.dir [("z", FileData.bytes [7])])]
        (some [("a", Entry.file (.bytes [1])), ("b", Entry.file (.bytes [5]))]))
      "b" = some (Entry.file (.bytes [5])) := by
  have h1 := C10_restore_copy2_semantics
    [("a", Entry.dir [("z", FileData.bytes [7])])]
    [("a", Entry.file (.bytes [1])), ("b", Entry.file (.bytes [5]))]
    "a" (by decide)
  have h2 := C10_restore_copy2_semantics
    [("a", Entry.dir [("z", FileData.bytes [7])])]
    [("a", Entry.file (.bytes [1])), ("b", Entry.file (.bytes [5]))]
    "b" (by decide)
  exact ⟨(h1.2.2 (FileData.bytes [1]) (by decide)).2
      [("z", FileData.bytes [7])] (by decide),
    (h2.2.2 (FileData.bytes [5]) (by decide)).1 (by decide)⟩

/-! ### Claim C7 -/

/-- C7 counterexample: the claim says loading never raises, including for
contents that cannot be parsed; but `load_data_state` catches only
`FileNotFoundError`, so a state file whose contents do not parse as the JSON
state object makes it raise (`none` in the model) instead of returning an
empty state. -/
theorem C7_counterexample :
    load_data_state
      [(data_state_filename, Entry.file (FileData.bytes [1, 2, 3]))] = none := by
  rfl

/-- C7 amended: loading the previous state returns the empty state when the
state file is missing (the first-run case, `FileNotFoundError` caught), and
returns the stored state when the file parses; but contents that cannot be
parsed are not handled — the parse error propagates. -/
theorem C7_load_fails_soft_only_when_missing (d : FsDir) :
    (alookup d data_state_filename = none →
      load_data_state d = some emptyState) ∧
    (∀ s, alookup d data_state_filename = some (.file (.state s)) →
      load_data_state d = some s) ∧
    (∀ b, alookup d data_state_filename = some (.file (.bytes b)) →
      load_data_state d = none) := by
  refine ⟨fun h => ?_, fun s h => ?_, fun b h => ?_⟩ <;>
    simp [load_data_state, h]

/-- Witness for C7 on a concrete directory with no state file. -/
theorem C7_witness :
    load_data_state [("socrata-90th-percentile.json", Entry.file (.bytes [1]))]
      = some emptyState := by
  exact (C7_load_fails_soft_only_when_missing
    [("socrata-90th-percentile.json", Entry.file (.bytes [1]))]).1 (by decide)

/-! ### Claim C8 -/

/-- C8: the REST fetch strategy issues a count query first; if its status is
a failure it raises an HTTP error with no follow-up request, if its body is
not valid JSON it raises a decode error; otherwise, whenever the count is
readable (`int(count_data[0]["count"])`, or 0 for an empty list), it issues
exactly one follow-up request whose record-count parameter equals that
returned count, raising an HTTP error on a failure status, a decode error if
that body is not valid JSON, and returning the decoded record list on
success.  (A valid-JSON count body whose first element is ill-shaped makes
`int(...)` raise before any follow-up request; see C2.) -/
theorem C8_socrata_count_then_single_request (net : SocrataNet) :
    (statusRaises net.countStatus = true →
      fetch_socrata_api net = (.error (.httpError net.countStatus), [])) ∧
    (statusRaises net.countStatus = false → net.countBody = none →
      fetch_socrata_api net = (.error .jsonDecodeError, [])) ∧
    (∀ counts rc, statusRaises net.countStatus = false →
      net.countBody = some counts → record_count_of counts = some rc →
      (fetch_socrata_api net).2 = [rc] ∧
      (statusRaises (net.allStatus rc) = true →
        (fetch_socrata_api net).1 = .error (.httpError (net.allStatus rc))) ∧
      (statusRaises (net.allStatus rc) = false →
        net.allBody rc = none →
        (fetch_socrata_api net).1 = .error .jsonDecodeError) ∧
      (∀ recs, net.allBody rc = some recs →
        statusRaises (net.allStatus rc) = false →
        (fetch_socrata_api net).1 = .ok recs)) ∧
    (∀ counts, statusRaises net.countStatus = false →
      net.countBody = some counts → record_count_of counts = none →
      fetch_socrata_api net = (.error .badCountError, [])) := by
  refine ⟨fun h => ?_, fun h hb => ?_, fun counts rc h hb hrc => ?_,
    fun counts h hb hrc => ?_⟩
  · simp [fetch_socrata_api, h]
  · simp [fetch_socrata_api, h, hb]
  · refine ⟨?_, fun h2 => ?_, fun h2 hb2 => ?_, fun recs hb2 h2 => ?_⟩ <;>
      simp_all [fetch_socrata_api] <;>
      (try (split_ifs <;> (try split) <;> rfl))
  · simp [fetch_socrata_api, h, hb, hrc]

/-- Witness for C8 on a concrete network: count 2 with a healthy endpoint,
so the single follow-up requests exactly 2 records and returns them. -/
theorem C8_witness :
    (fetch_socrata_api ⟨200, some [.countOf 2, .countOf 7], fun _ => 200,
        fun n => some [n, n]⟩).2 = [2] ∧
    (fetch_socrata_api ⟨200, some [.countOf 2, .countOf 7], fun _ => 200,
        fun n => some [n, n]⟩).1 = .ok [2, 2] := by
  have h := (C8_socrata_count_then_single_request
    ⟨200, some [.countOf 2, .countOf 7], fun _ => 200,
      fun n => some [n, n]⟩).2.2.1 [.countOf 2, .countOf 7] 2
    (by decide) rfl rfl
  exact ⟨h.1, h.2.2.2 [2, 2] rfl (by decide)⟩

/-! ### Claim C6 -/

/-- Case analysis of a scrape fetch once the landing page came back with a
success status, in terms of the filtered `.xlsx` links. -/
theorem scrape_fetch_cases (pu pl fn : String) (net : ScrapeNet) (d : FsDir)
    (hp : statusRaises net.pageStatus = false) :
    (net.pageLinks.filter is_xlsx_href = [] →
      scrape_fetch pu pl fn net d = (.error (.noLinkError pl), d)) ∧
    (1 < (net.pageLinks.filter is_xlsx_href).length →
      scrape_fetch pu pl fn net d
        = (.error (.multiLinkError pl (net.pageLinks.filter is_xlsx_href)), d)) ∧
    (∀ l, net.pageLinks.filter is_xlsx_href = [l] →
      (statusRaises (net.downloadStatus (urljoin pu l)) = true →
        scrape_fetch pu pl fn net d
          = (.error (.httpError (net.downloadStatus (urljoin pu l))), d)) ∧
      (statusRaises (net.downloadStatus (urljoin pu l)) = false →
        scrape_fetch pu pl fn net d
          = (.ok (), aset d fn (.file (.bytes (net.downloadBody (urljoin pu l))))))) := by
  refine ⟨fun h0 => ?_, fun h1 => ?_, fun l hl => ⟨fun hs => ?_, fun hs => ?_⟩⟩
  · simp [scrape_fetch, hp, h0]
  · have hne : net.pageLinks.filter is_xlsx_href ≠ [] := by
      intro he
      rw [he] at h1
      simp at h1
    simp [scrape_fetch, hp, List.isEmpty_iff, hne, h1]
  · simp [scrape_fetch, hp, hl, hs]
  · simp [scrape_fetch, hp, hl, hs]

/-- C6: for each HTML-scrape source (DSMI and Lead & Copper Rule), once the
landing page is fetched: zero `.xlsx` links make the fetch fail with a
not-found error naming the page; more than one make it fail with an
ambiguous-link error listing every candidate URL; in each failure case
(including a failed download) the dataset directory — in particular the
source's target file — is untouched; and only with exactly one matching
link is it resolved against the page URL, downloaded, and its bytes written
verbatim to the target file. -/
theorem C6_single_link_policy (netD netL : ScrapeNet) (d : FsDir)
    (hpD : statusRaises netD.pageStatus = false)
    (hpL : statusRaises netL.pageStatus = false) :
    ((netD.pageLinks.filter is_xlsx_href = [] →
      fetch_dsmi_inventories netD d = (.error (.noLinkError dsmi_page_label), d)) ∧
    (1 < (netD.pageLinks.filter is_xlsx_href).length →
      fetch_dsmi_inventories netD d
        = (.error (.multiLinkError dsmi_page_label
            (netD.pageLinks.filter is_xlsx_href)), d)) ∧
    (∀ l, netD.pageLinks.filter is_xlsx_href = [l] →
      (statusRaises (netD.downloadStatus (urljoin dsmi_page_url l)) = true →
        fetch_dsmi_inventories netD d
          = (.error (.httpError (netD.downloadStatus (urljoin dsmi_page_url l))), d)) ∧
      (statusRaises (netD.downloadStatus (urljoin dsmi_page_url l)) = false →
        fetch_dsmi_inventories netD d
          = (.ok (), aset d dsmi_filename
              (.file (.bytes (netD.downloadBody (urljoin dsmi_page_url l)))))))) ∧
    ((netL.pageLinks.filter is_xlsx_href = [] →
      fetch_lead_copper_rule netL d = (.error (.noLinkError lslr_page_label), d)) ∧
    (1 < (netL.pageLinks.filter is_xlsx_href).length →
      fetch_lead_copper_rule netL d
        = (.error (.multiLinkError lslr_page_label
            (netL.pageLinks.filter is_xlsx_href)), d)) ∧
    (∀ l, netL.pageLinks.filter is_xlsx_href = [l] →
      (statusRaises (netL.downloadStatus (urljoin lslr_page_url l)) = true →
        fetch_lead_copper_rule netL d
          = (.error (.httpError (netL.downloadStatus (urljoin lslr_page_url l))), d)) ∧
      (statusRaises (netL.downloadStatus (urljoin lslr_page_url l)) = false →
        fetch_lead_copper_rule netL d
          = (.ok (), aset d lslr_filename
              (.file (.bytes (netL.downloadBody (urljoin lslr_page_url l)))))))) :=
  ⟨scrape_fetch_cases dsmi_page_url dsmi_page_label dsmi_filename netD d hpD,
   scrape_fetch_cases lslr_page_url lslr_page_label lslr_filename netL d hpL⟩

/-- Witness for C6 on concrete pages: two candidate links make the DSMI
fetch fail listing both and leave the (empty) directory untouched, while a
single root-relative link makes the LSLR fetch download and write the file. -/
theorem C6_witness :
    fetch_dsmi_inventories ⟨200, ["a.xlsx", "b.xlsx"], fun _ => 200, fun _ => [1]⟩ []
      = (.error (.multiLinkError dsmi_page_label ["a.xlsx", "b.xlsx"]), []) ∧
    fetch_lead_copper_rule ⟨200, ["/f.xlsx"], fun _ => 200, fun _ => [4]⟩ []
      = (.ok (), [(lslr_filename, Entry.file (.bytes [4]))]) := by
  have h := C6_single_link_policy
    ⟨200, ["a.xlsx", "b.xlsx"], fun _ => 200, fun _ => [1]⟩
    ⟨200, ["/f.xlsx"], fun _ => 200, fun _ => [4]⟩ [] (by decide) (by decide)
  exact ⟨h.1.2.1 (by decide), (h.2.2.2 "/f.xlsx" (by decide)).2 (by decide)⟩

/-! ### Claim C3 -/

/-- The hash the current run computes for a tracked filename: present
exactly when the file exists (as a regular file). -/
def current_hash (d : FsDir) (filename : String) : Option String :=
  match alookup d filename with
  | some (.file c) => some (get_file_hash c)
  | _ => none

/-- The hash the previous state carries for a source key. -/
def prev_hash_of (prev : DataState) (key : String) : Option String :=
  (alookup prev.sources key).bind (fun r => r.content_hash)

/-- The detection condition of the source: both states carry a hash (the
previous one usable, i.e. non-empty) and the hashes differ. -/
def change_expected (prev : DataState) (d : FsDir) (key filename : String) :
    Bool :=
  match current_hash d filename, prev_hash_of prev key with
  | some ch, some ph => !ph.isEmpty && !(ph == ch)
  | _, _ => false

/-- The `ChangeEvent` literal appended by `detect_data_changes`. -/
def mkChangeEvent (key filename : String) : ChangeEvent :=
  ⟨source_name key, "Data content changed",
   "File " ++ filename ++ " has been modified", filename⟩

/-- The change list the detection loop is expected to produce: one event per
tracked source whose detection condition holds, in `DATA_FILES` order. -/
def expected_changes (prev : DataState) (d : FsDir) :
    List (String × String) → List ChangeEvent
  | [] => []
  | (key, filename) :: rest =>
    (if change_expected prev d key filename then [mkChangeEvent key filename]
     else []) ++ expected_changes prev d rest

/-- Whenever the detection loop completes, its change list is exactly
`expected_changes`. -/
theorem detect_loop_changes (prev : DataState) (d : FsDir)
    (files : List (String × String)) (srcs : List (String × SourceRec))
    (chs : List ChangeEvent)
    (h : detect_loop prev d files = some (srcs, chs)) :
    chs = expected_changes prev d files := by
  induction files generalizing srcs chs with
  | nil =>
    simp only [detect_loop] at h
    cases h
    rfl
  | cons kf rest ih =>
    obtain ⟨key, filename⟩ := kf
    simp only [detect_loop] at h
    cases hl : alookup d filename with
    | none =>
      rw [hl] at h
      cases hr : detect_loop prev d rest with
      | none => rw [hr] at h; cases h
      | some p =>
        obtain ⟨srcs2, chs2⟩ := p
        rw [hr] at h
        cases h
        have hcur : current_hash d filename = none := by
          simp [current_hash, hl]
        simp [expected_changes, change_expected, hcur, ih _ _ hr]
    | some e =>
      cases e with
      | dir s => rw [hl] at h; cases h
      | file c =>
        rw [hl] at h
        cases hr : detect_loop prev d rest with
        | none => rw [hr] at h; cases h
        | some p =>
          obtain ⟨srcs2, chs2⟩ := p
          rw [hr] at h
          cases h
          have hcur : current_hash d filename = some (get_file_hash c) := by
            simp [current_hash, hl]
          rw [ih srcs2 chs2 hr]
          simp only [expected_changes, change_expected, hcur, mkChangeEvent,
            prev_hash_of]
          cases hph : (alookup prev.sources key).bind
              (fun r => r.content_hash) <;> simp [hph]

/-- C3: for every configured source, once the detection loop has completed,
the number of `ChangeEvent`s carrying that source's name equals 1 when both
the previous state holds a usable (non-empty) content hash for it and the
current run computed a hash for it and the two differ, and 0 otherwise — in
particular at most one event per source per run, none for a source with no
usable previous hash, and none for a source missing in the current run. -/
theorem C3_change_event_iff_hash_differs (prev : DataState) (d : FsDir)
    (srcs : List (String × SourceRec)) (chs : List ChangeEvent)
    (key filename : String)
    (h : detect_loop prev d DATA_FILES = some (srcs, chs))
    (hmem : (key, filename) ∈ DATA_FILES) :
    (chs.filter (fun ev => ev.source == source_name key)).length
      = if change_expected prev d key filename then 1 else 0 := by
  rw [detect_loop_changes prev d DATA_FILES srcs chs h]
  simp only [DATA_FILES, List.mem_cons, List.not_mem_nil, or_false] at hmem
  rcases hmem with h1 | h1 | h1 <;> cases h1 <;>
    · simp only [expected_changes, DATA_FILES]
      cases hc1 : change_expected prev d "socrata_90th"
          "socrata-90th-percentile.json" <;>
        cases hc2 : change_expected prev d "dsmi"
            "DSMI-Service-Line-Materials-Estimates.xlsx" <;>
          cases hc3 : change_expected prev d "lslr"
              "2024-2025-LSLR-Data.xlsx" <;>
            simp [hc1, hc2, hc3, mkChangeEvent, source_name, SOURCE_NAMES,
              alookup]

/-- Witness for C3: a tracked source whose stored hash differs from the
current file's hash yields exactly one change event. -/
theorem C3_witness :
    (([mkChangeEvent "dsmi" dsmi_filename] : List ChangeEvent).filter
        (fun ev => ev.source == source_name "dsmi")).length
      = if change_expected
            ⟨[("dsmi", ⟨true, some "md5:[1]", some dsmi_filename⟩)],
             "t0", [], 0, true, []⟩
            [(dsmi_filename, Entry.file (.bytes [2]))] "dsmi" dsmi_filename
        then 1 else 0 := by
  exact C3_change_event_iff_hash_differs
    ⟨[("dsmi", ⟨true, some "md5:[1]", some dsmi_filename⟩)], "t0", [], 0, true, []⟩
    [(dsmi_filename, Entry.file (.bytes [2]))]
    [("socrata_90th", ⟨false, none, none⟩),
     ("dsmi", ⟨true, some "md5:[2]", some dsmi_filename⟩),
     ("lslr", ⟨false, none, none⟩)]
    [mkChangeEvent "dsmi" dsmi_filename]
    "dsmi" dsmi_filename (by decide) (by decide)

/-! ### Claim C2 -/

/-- The Socrata `try/except` block: an exception listed in its `except`
clause (an HTTP or JSON-decode error — never `badCountError`) is converted
into one error record, a success records none, and the uncaught
`badCountError` kills the block. -/
theorem step_socrata_cases (net : SocrataNet) (d : FsDir) :
    ((fetch_socrata_api net).1 = .error .badCountError →
      step_socrata net d = none) ∧
    ((fetch_socrata_api net).1 ≠ .error .badCountError →
      ∃ d1, step_socrata net d = some (d1,
        match (fetch_socrata_api net).1 with
        | .ok _ => []
        | .error e => [⟨"socrata_90th", source_name "socrata_90th", errMsg e⟩])) := by
  rcases hs : fetch_socrata_api net with ⟨r, log⟩
  constructor
  · intro h
    have hr : r = Except.error PyErr.badCountError := h
    subst hr
    simp [step_socrata, hs]
  · intro h
    cases r with
    | ok recs =>
      exact ⟨aset d socrata_filename (.file (.bytes recs)),
        by simp [step_socrata, hs]⟩
    | error e =>
      cases e with
      | httpError s => exact ⟨d, by simp [step_socrata, hs]⟩
      | jsonDecodeError => exact ⟨d, by simp [step_socrata, hs]⟩
      | noLinkError p => exact ⟨d, by simp [step_socrata, hs]⟩
      | multiLinkError p ls => exact ⟨d, by simp [step_socrata, hs]⟩
      | badCountError => exact absurd rfl h

/-- The DSMI step's error list depends only on the DSMI network outcome,
never on the directory the step starts from. -/
theorem step_dsmi_errors (net : ScrapeNet) (d d0 : FsDir) :
    (step_dsmi net d).2
      = (match (fetch_dsmi_inventories net d0).1 with
         | .ok _ => []
         | .error e => [⟨"dsmi", source_name "dsmi", errMsg e⟩]) := by
  rcases hr : fetch_dsmi_inventories net d with ⟨r2, dd⟩
  have hc : (r2, dd).1 = (fetch_dsmi_inventories net d0).1 := by
    rw [← hr]
    exact scrape_fetch_fst_const dsmi_page_url dsmi_page_label dsmi_filename net d d0
  cases r2 <;> simp [step_dsmi, hr, ← hc]

/-- The LSLR step's error list depends only on the LSLR network outcome,
never on the directory the step starts from. -/
theorem step_lslr_errors (net : ScrapeNet) (d d0 : FsDir) :
    (step_lslr net d).2
      = (match (fetch_lead_copper_rule net d0).1 with
         | .ok _ => []
         | .error e => [⟨"lslr", source_name "lslr", errMsg e⟩]) := by
  rcases hr : fetch_lead_copper_rule net d with ⟨r2, dd⟩
  have hc : (r2, dd).1 = (fetch_lead_copper_rule net d0).1 := by
    rw [← hr]
    exact scrape_fetch_fst_const lslr_page_url lslr_page_label lslr_filename net d d0
  cases r2 <;> simp [step_lslr, hr, ← hc]

/-- C2 counterexample: a Socrata count response with a success status and
valid JSON whose first element is ill-shaped makes
`int(count_data[0]["count"])` raise, and the Socrata block's
`except (requests.RequestException, json.JSONDecodeError)` does not catch
it: the run dies with no `FetchError` recorded, the two sibling sources
never attempted (the healthy DSMI fetch wrote nothing), nothing saved and
exit code 1 — refuting "no fetcher error aborts the sibling fetches or the
run". -/
theorem C2_counterexample :
    fetch_all ⟨⟨200, some [CountItem.malformed], fun _ => 200, fun n => some [n]⟩,
        ⟨200, ["/a.xlsx"], fun _ => 200, fun _ => [1]⟩,
        ⟨200, ["/b.xlsx"], fun _ => 200, fun _ => [2]⟩, "t1"⟩ [] = none ∧
    (mainRun [] ⟨⟨200, some [CountItem.malformed], fun _ => 200, fun n => some [n]⟩,
        ⟨200, ["/a.xlsx"], fun _ => 200, fun _ => [1]⟩,
        ⟨200, ["/b.xlsx"], fun _ => 200, fun _ => [2]⟩, "t1"⟩).saved = none ∧
    (mainRun [] ⟨⟨200, some [CountItem.malformed], fun _ => 200, fun n => some [n]⟩,
        ⟨200, ["/a.xlsx"], fun _ => 200, fun _ => [1]⟩,
        ⟨200, ["/b.xlsx"], fun _ => 200, fun _ => [2]⟩, "t1"⟩).exitCode = 1 ∧
    alookup (mainRun [] ⟨⟨200, some [CountItem.malformed], fun _ => 200, fun n => some [n]⟩,
        ⟨200, ["/a.xlsx"], fun _ => 200, fun _ => [1]⟩,
        ⟨200, ["/b.xlsx"], fun _ => 200, fun _ => [2]⟩, "t1"⟩).data
      dsmi_filename = none := by
  decide

/-- C2 amended: whenever a fetcher raises one of the errors its enclosing
`except` clause lists — HTTP/network errors or JSON decode errors, plus the
link-policy `ValueError`s of the two scrape fetchers — `main` converts it at
the per-source boundary into a `FetchError` record (source key, source name,
message) and still attempts every remaining source, whose writes land
regardless of sibling failures; but the `ValueError`/`KeyError`/`TypeError`
raised by `int(count_data[0]["count"])` on an ill-shaped Socrata count
response is outside that block's `except` list and aborts the sibling
fetches and the run.  (The directory hypotheses keep the written paths clear
of directories, where CPython would die of an uncaught
`IsADirectoryError`.) -/
theorem C2_caught_errors_isolated_per_source (inp : RunInput) (d0 : FsDir)
    (hw1 : is_dir_entry (alookup d0 socrata_filename) = false)
    (hw2 : is_dir_entry (alookup d0 dsmi_filename) = false)
    (hw3 : is_dir_entry (alookup d0 lslr_filename) = false) :
    ((fetch_socrata_api inp.socrataNet).1 = .error .badCountError →
      fetch_all inp d0 = none) ∧
    ((fetch_socrata_api inp.socrataNet).1 ≠ .error .badCountError →
      ∃ fetched, fetch_all inp d0 = some fetched ∧
        fetched.2
          = (match (fetch_socrata_api inp.socrataNet).1 with
             | .ok _ => []
             | .error e => [⟨"socrata_90th", source_name "socrata_90th", errMsg e⟩]) ++
            (match (fetch_dsmi_inventories inp.dsmiNet d0).1 with
             | .ok _ => []
             | .error e => [⟨"dsmi", source_name "dsmi", errMsg e⟩]) ++
            (match (fetch_lead_copper_rule inp.lslrNet d0).1 with
             | .ok _ => []
             | .error e => [⟨"lslr", source_name "lslr", errMsg e⟩]) ∧
        (∀ recs, (fetch_socrata_api inp.socrataNet).1 = .ok recs →
          alookup fetched.1 socrata_filename = some (.file (.bytes recs))) ∧
        ((fetch_dsmi_inventories inp.dsmiNet d0).1 = .ok () →
          alookup fetched.1 dsmi_filename
            = alookup (fetch_dsmi_inventories inp.dsmiNet d0).2 dsmi_filename) ∧
        ((fetch_lead_copper_rule inp.lslrNet d0).1 = .ok () →
          alookup fetched.1 lslr_filename
            = alookup (fetch_lead_copper_rule inp.lslrNet d0).2 lslr_filename)) := by
  constructor
  · intro h
    rw [fetch_all, (step_socrata_cases inp.socrataNet d0).1 h]
  · intro h
    obtain ⟨d1, hs1⟩ := (step_socrata_cases inp.socrataNet d0).2 h
    refine ⟨((step_lslr inp.lslrNet (step_dsmi inp.dsmiNet d1).1).1,
      (match (fetch_socrata_api inp.socrataNet).1 with
        | .ok _ => []
        | .error e => [⟨"socrata_90th", source_name "socrata_90th", errMsg e⟩])
      ++ (step_dsmi inp.dsmiNet d1).2
      ++ (step_lslr inp.lslrNet (step_dsmi inp.dsmiNet d1).1).2),
      ?_, ?_, fun recs hsoc => ?_, fun hok => ?_, fun hok => ?_⟩
    · rw [fetch_all, hs1]
    · rw [step_dsmi_errors _ _ d0, step_lslr_errors _ _ d0]
    · show alookup (step_lslr inp.lslrNet (step_dsmi inp.dsmiNet d1).1).1
        socrata_filename = _
      rw [step_lslr_frame _ _ _ (by decide), step_dsmi_frame _ _ _ (by decide)]
      rcases hsa : fetch_socrata_api inp.socrataNet with ⟨r1, log1⟩
      rw [hsa] at hsoc
      have hr : r1 = Except.ok recs := hsoc
      subst hr
      simp only [step_socrata, hsa, Option.some.injEq] at hs1
      have hd1 : d1 = aset d0 socrata_filename (.file (.bytes recs)) :=
        (Prod.mk.injEq _ _ _ _ ▸ hs1).1.symm
      rw [hd1, alookup_aset]
      simp
    · show alookup (step_lslr inp.lslrNet (step_dsmi inp.dsmiNet d1).1).1
        dsmi_filename = _
      rw [step_lslr_frame _ _ _ (by decide)]
      have hshape := (scrape_fetch_shape dsmi_page_url dsmi_page_label
        dsmi_filename inp.dsmiNet).1
      have hok0 : (scrape_fetch dsmi_page_url dsmi_page_label dsmi_filename
          inp.dsmiNet []).1 = .ok () := by
        rw [scrape_fetch_fst_const dsmi_page_url dsmi_page_label dsmi_filename
          inp.dsmiNet [] d0]
        exact hok
      obtain ⟨b, hb⟩ := hshape hok0
      have h1 : fetch_dsmi_inventories inp.dsmiNet d1
          = (.ok (), aset d1 dsmi_filename (.file (.bytes b))) := by
        have h2 := hb d1
        have h3 := scrape_fetch_fst_const dsmi_page_url dsmi_page_label
          dsmi_filename inp.dsmiNet d1 []
        rw [hok0] at h3
        show scrape_fetch dsmi_page_url dsmi_page_label dsmi_filename
          inp.dsmiNet d1 = _
        rw [Prod.ext_iff]
        exact ⟨h3, h2⟩
      rw [show (fetch_dsmi_inventories inp.dsmiNet d0).2
          = aset d0 dsmi_filename (.file (.bytes b)) from hb d0]
      simp [step_dsmi, h1, alookup_aset]
    · show alookup (step_lslr inp.lslrNet (step_dsmi inp.dsmiNet d1).1).1
        lslr_filename = _
      have hshape := (scrape_fetch_shape lslr_page_url lslr_page_label
        lslr_filename inp.lslrNet).1
      have hok0 : (scrape_fetch lslr_page_url lslr_page_label lslr_filename
          inp.lslrNet []).1 = .ok () := by
        rw [scrape_fetch_fst_const lslr_page_url lslr_page_label lslr_filename
          inp.lslrNet [] d0]
        exact hok
      obtain ⟨b, hb⟩ := hshape hok0
      set dmid := (step_dsmi inp.dsmiNet d1).1 with hd
      have h1 : fetch_lead_copper_rule inp.lslrNet dmid
          = (.ok (), aset dmid lslr_filename (.file (.bytes b))) := by
        have h2 := hb dmid
        have h3 := scrape_fetch_fst_const lslr_page_url lslr_page_label
          lslr_filename inp.lslrNet dmid []
        rw [hok0] at h3
        show scrape_fetch lslr_page_url lslr_page_label lslr_filename
          inp.lslrNet dmid = _
        rw [Prod.ext_iff]
        exact ⟨h3, h2⟩
      rw [show (fetch_lead_copper_rule inp.lslrNet d0).2
          = aset d0 lslr_filename (.file (.bytes b)) from hb d0]
      simp [step_lslr, h1, alookup_aset]

/-- Witness for C2 (amended): the Socrata count endpoint answers 500 — an
exception its `except` clause lists — while both scrape sources succeed, so
the fetch phase completes with exactly one error record (for the Socrata
source) and the sibling fetches still ran. -/
theorem C2_witness :
    (fetch_all ⟨⟨500, some [.countOf 1], fun _ => 200, fun n => some [n]⟩,
        ⟨200, ["/a.xlsx"], fun _ => 200, fun _ => [1]⟩,
        ⟨200, ["/b.xlsx"], fun _ => 200, fun _ => [2]⟩, "t"⟩ []).map
      (fun p => p.2)
      = some [⟨"socrata_90th", "Socrata 90th Percentile API", "HTTP error 500"⟩] := by
  obtain ⟨fetched, hfa, herrs, _⟩ := (C2_caught_errors_isolated_per_source
    ⟨⟨500, some [.countOf 1], fun _ => 200, fun n => some [n]⟩,
     ⟨200, ["/a.xlsx"], fun _ => 200, fun _ => [1]⟩,
     ⟨200, ["/b.xlsx"], fun _ => 200, fun _ => [2]⟩, "t"⟩ []
    (by decide) (by decide) (by decide)).2
    (fun hc => PyErr.noConfusion (Except.error.inj hc))
  have h2 : fetched.2
      = [⟨"socrata_90th", "Socrata 90th Percentile API", "HTTP error 500"⟩] :=
    herrs.trans (by decide)
  rw [hfa]
  show some fetched.2 = _
  rw [h2]

/-! ### Orchestrator claims (C1, C4, C5, C9) -/

/-- Closed form of `mainRun` on every run whose fetch phase completes and
whose change detection completes. -/
theorem mainRun_eq (pre : FsDir) (inp : RunInput)
    (fetched : FsDir × List FetchError)
    (srcs : List (String × SourceRec)) (changes : List ChangeEvent)
    (hfa : fetch_all inp pre = some fetched)
    (h : detect_data_changes (restored_dir pre fetched) = some (srcs, changes)) :
    mainRun pre inp =
      ⟨save_data_state (restored_dir pre fetched)
          ⟨srcs, inp.now, changes, changes.length,
           fetched.2.isEmpty, fetched.2⟩,
        (if fetched.2.isEmpty && changes.isEmpty then none else some pre),
        (if fetched.2.isEmpty then 0 else 1),
        some ⟨srcs, inp.now, changes, changes.length,
          fetched.2.isEmpty, fetched.2⟩⟩ := by
  simp only [mainRun, backup_data, clear_backup, hfa, h]

/-- Closed form of `mainRun` on a run that dies inside the Socrata block. -/
theorem mainRun_abort_eq (pre : FsDir) (inp : RunInput)
    (h : fetch_all inp pre = none) :
    mainRun pre inp = ⟨pre, some pre, 1, none⟩ := by
  simp only [mainRun, backup_data, h]

/-- Closed form of `mainRun` on a run whose change detection raises. -/
theorem mainRun_crash_eq (pre : FsDir) (inp : RunInput)
    (fetched : FsDir × List FetchError)
    (hfa : fetch_all inp pre = some fetched)
    (h : detect_data_changes (restored_dir pre fetched) = none) :
    mainRun pre inp = ⟨restored_dir pre fetched, some pre, 1, none⟩ := by
  simp only [mainRun, backup_data, hfa, h]

/-- C4 counterexample: a run whose previous state file does not parse dies
of the uncaught parse error after all three fetches succeeded: no state is
persisted and the exit code is 1 even though every source fetched
successfully, contradicting the claim's "on every run, regardless of
outcome". -/
theorem C4_counterexample :
    ((fetch_all ⟨⟨200, some [.countOf 1], fun _ => 200, fun n => some [n]⟩,
        ⟨200, ["/a.xlsx"], fun _ => 200, fun _ => [1]⟩,
        ⟨200, ["/b.xlsx"], fun _ => 200, fun _ => [2]⟩, "t1"⟩
      [(data_state_filename, Entry.file (.bytes [0]))]).map
        (fun p => p.2) = some []) ∧
    (mainRun [(data_state_filename, Entry.file (.bytes [0]))]
      ⟨⟨200, some [.countOf 1], fun _ => 200, fun n => some [n]⟩,
       ⟨200, ["/a.xlsx"], fun _ => 200, fun _ => [1]⟩,
       ⟨200, ["/b.xlsx"], fun _ => 200, fun _ => [2]⟩, "t1"⟩).saved = none ∧
    (mainRun [(data_state_filename, Entry.file (.bytes [0]))]
      ⟨⟨200, some [.countOf 1], fun _ => 200, fun n => some [n]⟩,
       ⟨200, ["/a.xlsx"], fun _ => 200, fun _ => [1]⟩,
       ⟨200, ["/b.xlsx"], fun _ => 200, fun _ => [2]⟩, "t1"⟩).exitCode = 1 := by
  decide

/-- C4 amended: on every run whose fetch phase and change detection complete
(the previous state file is absent or parses, and no directory sits at a
tracked filename), a new `DataState` is persisted into the state file
containing `fetch_success`, `fetch_errors`, `changes` and `changes_count`,
where `changes_count` is the length of `changes` and `fetch_success` holds
exactly when `fetch_errors` is empty; the exit code is 0 exactly when every
fetch succeeded, and non-zero — with the state still persisted — otherwise,
independent of the detected changes. -/
theorem C4_state_persisted_and_exit_code (pre : FsDir) (inp : RunInput)
    (fetched : FsDir × List FetchError)
    (srcs : List (String × SourceRec)) (changes : List ChangeEvent)
    (hfa : fetch_all inp pre = some fetched)
    (h : detect_data_changes (restored_dir pre fetched) = some (srcs, changes)) :
    ∃ s, (mainRun pre inp).saved = some s ∧
      alookup (mainRun pre inp).data data_state_filename
        = some (.file (.state s)) ∧
      s.fetch_errors = fetched.2 ∧
      s.changes = changes ∧
      s.changes_count = s.changes.length ∧
      (s.fetch_success = true ↔ s.fetch_errors = []) ∧
      ((mainRun pre inp).exitCode = 0 ↔ s.fetch_errors = []) := by
  rw [mainRun_eq pre inp fetched srcs changes hfa h]
  refine ⟨_, rfl, ?_, rfl, rfl, rfl, ?_, ?_⟩
  · rw [save_data_state, alookup_aset]
    simp
  · simp [List.isEmpty_iff]
  · constructor
    · intro he
      by_contra hne
      have : fetched.2.isEmpty = false := by
        cases hfe : fetched.2 with
        | nil => exact absurd hfe hne
        | cons a t => rfl
      rw [this] at he
      cases he
    · intro he
      have he2 : fetched.2 = [] := he
      simp [he2]

/-- Witness for C4 (amended): a concrete run with one failing source
persists a state with one fetch error and exits 1. -/
theorem C4_witness :
    ∃ s, (mainRun [] ⟨⟨500, some [.countOf 1], fun _ => 200, fun n => some [n]⟩,
        ⟨200, ["/a.xlsx"], fun _ => 200, fun _ => [2]⟩,
        ⟨200, ["/b.xlsx"], fun _ => 200, fun _ => [2]⟩, "t1"⟩).saved = some s ∧
      alookup (mainRun [] ⟨⟨500, some [.countOf 1], fun _ => 200, fun n => some [n]⟩,
          ⟨200, ["/a.xlsx"], fun _ => 200, fun _ => [2]⟩,
          ⟨200, ["/b.xlsx"], fun _ => 200, fun _ => [2]⟩, "t1"⟩).data
          data_state_filename
        = some (.file (.state s)) ∧
      s.fetch_errors = [⟨"socrata_90th", "Socrata 90th Percentile API",
        "HTTP error 500"⟩] ∧
      s.changes = [] ∧
      s.changes_count = s.changes.length ∧
      (s.fetch_success = true ↔ s.fetch_errors = []) ∧
      ((mainRun [] ⟨⟨500, some [.countOf 1], fun _ => 200, fun n => some [n]⟩,
        ⟨200, ["/a.xlsx"], fun _ => 200, fun _ => [2]⟩,
        ⟨200, ["/b.xlsx"], fun _ => 200, fun _ => [2]⟩, "t1"⟩).exitCode = 0
        ↔ s.fetch_errors = []) :=
  C4_state_persisted_and_exit_code []
    ⟨⟨500, some [.countOf 1], fun _ => 200, fun n => some [n]⟩,
     ⟨200, ["/a.xlsx"], fun _ => 200, fun _ => [2]⟩,
     ⟨200, ["/b.xlsx"], fun _ => 200, fun _ => [2]⟩, "t1"⟩
    ([("DSMI-Service-Line-Materials-Estimates.xlsx", Entry.file (.bytes [2])),
      ("2024-2025-LSLR-Data.xlsx", Entry.file (.bytes [2]))],
     [⟨"socrata_90th", "Socrata 90th Percentile API", "HTTP error 500"⟩])
    [("socrata_90th", ⟨false, none, none⟩),
     ("dsmi", ⟨true, some "md5:[2]", some dsmi_filename⟩),
     ("lslr", ⟨true, some "md5:[2]", some lslr_filename⟩)]
    [] (by decide) (by decide)

/-- C5: at the end of a run (one whose fetch phase and change detection
complete), the backup directory is gone exactly when every fetch succeeded
and zero changes were detected; whenever a fetch failed or at least one
change was detected, the backup is still the pre-run snapshot, retained for
inspection. -/
theorem C5_backup_cleared_iff_clean_run (pre : FsDir) (inp : RunInput)
    (fetched : FsDir × List FetchError)
    (srcs : List (String × SourceRec)) (changes : List ChangeEvent)
    (hfa : fetch_all inp pre = some fetched)
    (h : detect_data_changes (restored_dir pre fetched) = some (srcs, changes)) :
    ∃ s, (mainRun pre inp).saved = some s ∧
      ((mainRun pre inp).backup = none
        ↔ (s.fetch_errors = [] ∧ s.changes = [])) ∧
      ((mainRun pre inp).backup ≠ none →
        (mainRun pre inp).backup = some pre) := by
  rw [mainRun_eq pre inp fetched srcs changes hfa h]
  refine ⟨_, rfl, ?_, ?_⟩
  · cases hb : (fetched.2.isEmpty && changes.isEmpty) with
    | true =>
      simp only [Bool.and_eq_true, List.isEmpty_iff] at hb
      simp [hb.1, hb.2]
    | false =>
      simp only [hb, Bool.false_eq_true, if_false]
      constructor
      · intro hcontra
        cases hcontra
      · rintro ⟨h1, h2⟩
        have h1b : fetched.2 = [] := h1
        have h2b : changes = [] := h2
        rw [h1b, h2b] at hb
        simp at hb
  · intro hne
    cases hb : (fetched.2.isEmpty && changes.isEmpty) with
    | true =>
      rw [hb] at hne
      simp at hne
    | false =>
      simp [hb]

/-- Witness for C5: a fully successful first run with no prior state
detects no changes and ends with the backup directory removed. -/
theorem C5_witness :
    ∃ s, (mainRun [] ⟨⟨200, some [.countOf 1], fun _ => 200, fun n => some [n]⟩,
        ⟨200, ["/a.xlsx"], fun _ => 200, fun _ => [1]⟩,
        ⟨200, ["/b.xlsx"], fun _ => 200, fun _ => [2]⟩, "t1"⟩).saved = some s ∧
      ((mainRun [] ⟨⟨200, some [.countOf 1], fun _ => 200, fun n => some [n]⟩,
          ⟨200, ["/a.xlsx"], fun _ => 200, fun _ => [1]⟩,
          ⟨200, ["/b.xlsx"], fun _ => 200, fun _ => [2]⟩, "t1"⟩).backup = none
        ↔ (s.fetch_errors = [] ∧ s.changes = [])) ∧
      ((mainRun [] ⟨⟨200, some [.countOf 1], fun _ => 200, fun n => some [n]⟩,
          ⟨200, ["/a.xlsx"], fun _ => 200, fun _ => [1]⟩,
          ⟨200, ["/b.xlsx"], fun _ => 200, fun _ => [2]⟩, "t1"⟩).backup ≠ none →
        (mainRun [] ⟨⟨200, some [.countOf 1], fun _ => 200, fun n => some [n]⟩,
          ⟨200, ["/a.xlsx"], fun _ => 200, fun _ => [1]⟩,
          ⟨200, ["/b.xlsx"], fun _ => 200, fun _ => [2]⟩, "t1"⟩).backup
          = some []) :=
  C5_backup_cleared_iff_clean_run []
    ⟨⟨200, some [.countOf 1], fun _ => 200, fun n => some [n]⟩,
     ⟨200, ["/a.xlsx"], fun _ => 200, fun _ => [1]⟩,
     ⟨200, ["/b.xlsx"], fun _ => 200, fun _ => [2]⟩, "t1"⟩
    ([("socrata-90th-percentile.json", Entry.file (.bytes [1])),
      ("DSMI-Service-Line-Materials-Estimates.xlsx", Entry.file (.bytes [1])),
      ("2024-2025-LSLR-Data.xlsx", Entry.file (.bytes [2]))], [])
    [("socrata_90th", ⟨true, some "md5:[1]", some socrata_filename⟩),
     ("dsmi", ⟨true, some "md5:[1]", some dsmi_filename⟩),
     ("lslr", ⟨true, some "md5:[2]", some lslr_filename⟩)]
    [] (by decide) (by decide)

/-! ### Claim C9 -/

/-- C9 counterexample: in a run with one `FetchError` recorded whose pre-run
state file does not parse, the restore puts the pre-run state file back and
the run then dies inside `detect_data_changes` before `save_data_state`, so
the run ends with the state file equal to the restored pre-run copy and no
current-run `DataState` saved — refuting the claim's "never the restored
pre-run one". -/
theorem C9_counterexample :
    ((fetch_all ⟨⟨500, some [.countOf 1], fun _ => 200, fun n => some [n]⟩,
        ⟨200, ["/a.xlsx"], fun _ => 200, fun _ => [1]⟩,
        ⟨200, ["/b.xlsx"], fun _ => 200, fun _ => [2]⟩, "t1"⟩
      [(data_state_filename, Entry.file (.bytes [0]))]).map
        (fun p => p.2.length) = some 1) ∧
    (mainRun [(data_state_filename, Entry.file (.bytes [0]))]
      ⟨⟨500, some [.countOf 1], fun _ => 200, fun n => some [n]⟩,
       ⟨200, ["/a.xlsx"], fun _ => 200, fun _ => [1]⟩,
       ⟨200, ["/b.xlsx"], fun _ => 200, fun _ => [2]⟩, "t1"⟩).saved = none ∧
    alookup (mainRun [(data_state_filename, Entry.file (.bytes [0]))]
      ⟨⟨500, some [.countOf 1], fun _ => 200, fun n => some [n]⟩,
       ⟨200, ["/a.xlsx"], fun _ => 200, fun _ => [1]⟩,
       ⟨200, ["/b.xlsx"], fun _ => 200, fun _ => [2]⟩, "t1"⟩).data
      data_state_filename
      = some (Entry.file (.bytes [0])) := by
  decide

/-- C9 amended: the persisted state file is an entry of the dataset
directory itself (`DATA_STATE_FILE = os.path.join(DATA_DIR,
"data-state.json")`), so the pre-run backup snapshots it along with the
data files, and a restore after fetch failure overwrites the live state
file with that pre-run copy.  On every run that reaches `save_data_state`
(its change detection completes), the state file at the end holds the
current run's `DataState` (current timestamp and fetch errors); but a run
that dies before the save — e.g. because the restored pre-run state file
does not parse — ends with the restored pre-run copy still in place. -/
theorem C9_state_file_backed_up_restored_then_overwritten (pre : FsDir)
    (inp : RunInput) (fetched : FsDir × List FetchError)
    (hnd : (pre.map Prod.fst).Nodup)
    (hfa : fetch_all inp pre = some fetched) :
    ((backup_data pre none).map (fun b => alookup b data_state_filename)
      = some (alookup pre data_state_filename)) ∧
    (∀ c, alookup pre data_state_filename = some (.file c) →
      fetched.2 ≠ [] →
      alookup (restored_dir pre fetched) data_state_filename
        = some (.file c)) ∧
    (∀ srcs changes,
      detect_data_changes (restored_dir pre fetched) = some (srcs, changes) →
      ∃ s, (mainRun pre inp).saved = some s ∧ s.last_check = inp.now ∧
        s.fetch_errors = fetched.2 ∧
        alookup (mainRun pre inp).data data_state_filename
          = some (.file (.state s))) ∧
    (∀ c, alookup pre data_state_filename = some (.file c) →
      fetched.2 ≠ [] →
      detect_data_changes (restored_dir pre fetched) = none →
      (mainRun pre inp).saved = none ∧
      alookup (mainRun pre inp).data data_state_filename
        = some (.file c)) := by
  have hrest : ∀ c, alookup pre data_state_filename = some (.file c) →
      fetched.2 ≠ [] →
      alookup (restored_dir pre fetched) data_state_filename
        = some (.file c) := by
    intro c hc herr
    have herr2 : fetched.2.isEmpty = false := by
      cases hfe : fetched.2 with
      | nil => exact absurd hfe herr
      | cons a t => rfl
    simp only [restored_dir, herr2, Bool.false_eq_true, if_false]
    show alookup (restore_files fetched.1 pre) data_state_filename = _
    rw [restore_files_lookup pre _ _ hnd, hc]
    rw [show alookup fetched.1 data_state_filename = some (Entry.file c) from
      (fetch_all_frame inp pre fetched hfa _ (by decide) (by decide)
        (by decide)).trans hc]
    rfl
  refine ⟨rfl, hrest, fun srcs changes hdet => ?_, fun c hc herr hdet => ?_⟩
  · rw [mainRun_eq pre inp fetched srcs changes hfa hdet]
    refine ⟨_, rfl, rfl, rfl, ?_⟩
    rw [save_data_state, alookup_aset]
    simp
  · rw [mainRun_crash_eq pre inp fetched hfa hdet]
    exact ⟨rfl, hrest c hc herr⟩

/-- Witness for C9 (amended): a failing run over a dataset directory holding
a prior (parseable) state file restores that file and then overwrites it
with the new state. -/
theorem C9_witness :
    alookup (restored_dir
        [(data_state_filename, Entry.file (.state ⟨[], "t0", [], 0, true, []⟩))]
        ([(data_state_filename, Entry.file (.state ⟨[], "t0", [], 0, true, []⟩)),
          ("DSMI-Service-Line-Materials-Estimates.xlsx", Entry.file (.bytes [1])),
          ("2024-2025-LSLR-Data.xlsx", Entry.file (.bytes [2]))],
         [⟨"socrata_90th", "Socrata 90th Percentile API", "HTTP error 500"⟩]))
      data_state_filename
      = some (.file (.state ⟨[], "t0", [], 0, true, []⟩)) ∧
    (∃ s, (mainRun
        [(data_state_filename, Entry.file (.state ⟨[], "t0", [], 0, true, []⟩))]
        ⟨⟨500, some [.countOf 1], fun _ => 200, fun n => some [n]⟩,
         ⟨200, ["/a.xlsx"], fun _ => 200, fun _ => [1]⟩,
         ⟨200, ["/b.xlsx"], fun _ => 200, fun _ => [2]⟩, "t1"⟩).saved = some s ∧
      s.last_check = "t1" ∧
      s.fetch_errors = [⟨"socrata_90th", "Socrata 90th Percentile API",
        "HTTP error 500"⟩] ∧
      alookup (mainRun
        [(data_state_filename, Entry.file (.state ⟨[], "t0", [], 0, true, []⟩))]
        ⟨⟨500, some [.countOf 1], fun _ => 200, fun n => some [n]⟩,
         ⟨200, ["/a.xlsx"], fun _ => 200, fun _ => [1]⟩,
         ⟨200, ["/b.xlsx"], fun _ => 200, fun _ => [2]⟩, "t1"⟩).data
        data_state_filename = some (.file (.state s))) := by
  have h := C9_state_file_backed_up_restored_then_overwritten
    [(data_state_filename, Entry.file (.state ⟨[], "t0", [], 0, true, []⟩))]
    ⟨⟨500, some [.countOf 1], fun _ => 200, fun n => some [n]⟩,
     ⟨200, ["/a.xlsx"], fun _ => 200, fun _ => [1]⟩,
     ⟨200, ["/b.xlsx"], fun _ => 200, fun _ => [2]⟩, "t1"⟩
    ([(data_state_filename, Entry.file (.state ⟨[], "t0", [], 0, true, []⟩)),
      ("DSMI-Service-Line-Materials-Estimates.xlsx", Entry.file (.bytes [1])),
      ("2024-2025-LSLR-Data.xlsx", Entry.file (.bytes [2]))],
     [⟨"socrata_90th", "Socrata 90th Percentile API", "HTTP error 500"⟩])
    (by decide) (by decide)
  exact ⟨h.2.1 (.state ⟨[], "t0", [], 0, true, []⟩) (by decide) (by decide),
    h.2.2.1 [("socrata_90th", ⟨false, none, none⟩),
      ("dsmi", ⟨true, some "md5:[1]", some dsmi_filename⟩),
      ("lslr", ⟨true, some "md5:[2]", some lslr_filename⟩)] [] (by decide)⟩

/-! ### Claim C1 -/

/-- C1 counterexample: the state file `data-state.json` is itself a file of
the dataset directory; in a run with one `FetchError` recorded it is first
restored but then overwritten with the new run's state, so it does **not**
keep its pre-run contents byte for byte. -/
theorem C1_counterexample :
    ((mainRun
        [(data_state_filename, Entry.file (.state ⟨[], "t0", [], 0, true, []⟩))]
        ⟨⟨500, some [.countOf 1], fun _ => 200, fun n => some [n]⟩,
         ⟨200, ["/a.xlsx"], fun _ => 200, fun _ => [1]⟩,
         ⟨200, ["/b.xlsx"], fun _ => 200, fun _ => [2]⟩, "t1"⟩).saved.map
        (fun s => s.fetch_errors.length) = some 1) ∧
    alookup [(data_state_filename,
        Entry.file (FileData.state ⟨[], "t0", [], 0, true, []⟩))]
      data_state_filename
      = some (.file (.state ⟨[], "t0", [], 0, true, []⟩)) ∧
    alookup (mainRun
        [(data_state_filename, Entry.file (.state ⟨[], "t0", [], 0, true, []⟩))]
        ⟨⟨500, some [.countOf 1], fun _ => 200, fun n => some [n]⟩,
         ⟨200, ["/a.xlsx"], fun _ => 200, fun _ => [1]⟩,
         ⟨200, ["/b.xlsx"], fun _ => 200, fun _ => [2]⟩, "t1"⟩).data
        data_state_filename
      ≠ some (.file (.state ⟨[], "t0", [], 0, true, []⟩)) := by
  decide

/-- C1 amended: in every run with at least one `FetchError`, every file that
existed in the dataset directory before the run **other than the state file
`data-state.json`** has the same contents afterwards (the state file is
restored too, but then overwritten with the new run's state).  The
hypotheses keep the run inside the model's domain: directory names are
unique, and no directory entry sits at a tracked target filename (there
CPython would die of an uncaught `IsADirectoryError` instead of completing
the run). -/
theorem C1_rollback_preserves_preexisting_files (pre : FsDir)
    (inp : RunInput) (fetched : FsDir × List FetchError)
    (n : String) (e : Entry)
    (hnd : (pre.map Prod.fst).Nodup)
    (hw1 : is_dir_entry (alookup pre socrata_filename) = false)
    (hw2 : is_dir_entry (alookup pre dsmi_filename) = false)
    (hw3 : is_dir_entry (alookup pre lslr_filename) = false)
    (hfa : fetch_all inp pre = some fetched)
    (herr : fetched.2 ≠ [])
    (hn : n ≠ data_state_filename)
    (hpre : alookup pre n = some e) :
    alookup (mainRun pre inp).data n = some e := by
  have herr2 : fetched.2.isEmpty = false := by
    cases hfe : fetched.2 with
    | nil => exact absurd hfe herr
    | cons a t => rfl
  have hd2 : alookup (restored_dir pre fetched) n = some e := by
    simp only [restored_dir, herr2, Bool.false_eq_true, if_false]
    show alookup (restore_files fetched.1 pre) n = some e
    rw [restore_files_lookup pre _ n hnd]
    cases e with
    | file c =>
      rw [hpre]
      have hnotdir : is_dir_entry (alookup fetched.1 n) = false :=
        fetch_all_not_dir inp pre fetched hfa n (by rw [hpre]; rfl)
      cases hdk : alookup fetched.1 n with
      | none => rfl
      | some e2 =>
        cases e2 with
        | file c2 => rfl
        | dir s2 =>
          rw [hdk] at hnotdir
          exact Bool.noConfusion hnotdir
    | dir s =>
      rw [hpre]
      show alookup fetched.1 n = some (.dir s)
      by_cases h1 : n = socrata_filename
      · rw [h1] at hpre
        rw [hpre] at hw1
        cases hw1
      · by_cases h2 : n = dsmi_filename
        · rw [h2] at hpre
          rw [hpre] at hw2
          cases hw2
        · by_cases h3 : n = lslr_filename
          · rw [h3] at hpre
            rw [hpre] at hw3
            cases hw3
          · rw [fetch_all_frame inp pre fetched hfa n h1 h2 h3, hpre]
  cases hdet : detect_data_changes (restored_dir pre fetched) with
  | none =>
    rw [mainRun_crash_eq pre inp fetched hfa hdet]
    exact hd2
  | some p =>
    obtain ⟨srcs, changes⟩ := p
    rw [mainRun_eq pre inp fetched srcs changes hfa hdet]
    show alookup (save_data_state (restored_dir pre fetched) _) n = some e
    rw [save_data_state, alookup_aset, if_neg hn]
    exact hd2

/-- Witness for C1 (amended): a failing run over a directory holding a
pre-existing DSMI spreadsheet restores its bytes even though the DSMI fetch
overwrote them. -/
theorem C1_witness :
    alookup (mainRun
        [(dsmi_filename, Entry.file (.bytes [9])),
         (data_state_filename, Entry.file (.state ⟨[], "t0", [], 0, true, []⟩))]
        ⟨⟨500, some [.countOf 1], fun _ => 200, fun n => some [n]⟩,
         ⟨200, ["/a.xlsx"], fun _ => 200, fun _ => [1]⟩,
         ⟨200, ["/b.xlsx"], fun _ => 200, fun _ => [2]⟩, "t1"⟩).data
      dsmi_filename = some (Entry.file (.bytes [9])) := by
  exact C1_rollback_preserves_preexisting_files
    [(dsmi_filename, Entry.file (.bytes [9])),
     (data_state_filename, Entry.file (.state ⟨[], "t0", [], 0, true, []⟩))]
    ⟨⟨500, some [.countOf 1], fun _ => 200, fun n => some [n]⟩,
     ⟨200, ["/a.xlsx"], fun _ => 200, fun _ => [1]⟩,
     ⟨200, ["/b.xlsx"], fun _ => 200, fun _ => [2]⟩, "t1"⟩
    ([("DSMI-Service-Line-Materials-Estimates.xlsx", Entry.file (.bytes [1])),
      (data_state_filename, Entry.file (.state ⟨[], "t0", [], 0, true, []⟩)),
      ("2024-2025-LSLR-Data.xlsx", Entry.file (.bytes [2]))],
     [⟨"socrata_90th", "Socrata 90th Percentile API", "HTTP error 500"⟩])
    dsmi_filename (Entry.file (.bytes [9]))
    (by decide) (by decide) (by decide) (by decide) (by decide) (by decide)
    (by decide) (by decide)

end LeadDashboard
